import Mathlib

/-!
Shallow embedding of the `city_portal` Flask application (`src/app.py`)
and proofs about its helpers, schema and request handlers.

Conventions of the embedding:
* SQLAlchemy model classes become Lean structures; the database session
  becomes an explicit `Store` record of row lists, passed and returned.
* `Query.filter_by(...).first()` becomes `List.find?`.
* `flash(msg, category)` calls are collected into a returned list.
* `mail.send` attempts are collected into a returned list of `Email`s; a
  boolean `emailOk` parameter says whether the send raises (the `except`
  branch only adds a warning flash, it never undoes prior commits).
* `random.randint(100000, 999999)` draws are supplied as an explicit
  list of naturals; the unbounded `while True` retry loop of
  `_generate_complaint_no` returns `none` when the supplied draws are
  exhausted (the Python code would keep looping).
* Timestamps (`datetime.utcnow`) are naturals supplied by the caller.
-/

namespace CityPortal

/-- Row of the `citizens` table (class `Citizen`, src/app.py:86-96). -/
structure Citizen where
  id : Nat
  name : String
  aadhar_number : String
  contact : String
  email : String
  password : String
  address : String
  date_created : Nat
deriving DecidableEq, Repr

/-- Row of the `complaints` table (class `Complaint`, src/app.py:99-124). -/
structure Complaint where
  id : Nat
  complaint_no : String
  title : String
  location : String
  category : String
  subcategory : String
  sub_subcategory : String
  priority : String
  affected_people : String
  description : String
  citizen_aadhar : String
  status : String
  date_created : Nat
deriving DecidableEq, Repr

/-- Row of the `complaint_images` table (class `ComplaintImage`, src/app.py:127-132). -/
structure ComplaintImage where
  id : Nat
  complaint_id : Nat
  image_path : String
  uploaded_at : Nat
deriving DecidableEq, Repr

/-- The persisted state: the three tables the handlers touch. -/
structure Store where
  citizens : List Citizen
  complaints : List Complaint
  images : List ComplaintImage
deriving DecidableEq, Repr

/-- One `flash(message, category)` call. -/
structure Flash where
  message : String
  category : String
deriving DecidableEq, Repr

/-- One attempted `mail.send` (subject and recipient; the body is
presentation text built from the same fields and is elided). -/
structure Email where
  subject : String
  recipient : String
deriving DecidableEq, Repr

/-- Outcome of one request handler: the store after all commits, the
flashed messages in order, the redirect target, and the attempted emails. -/
structure HandlerResult where
  store : Store
  flashes : List Flash
  redirect : String
  emails : List Email
deriving DecidableEq, Repr

/-- Python `str.isspace` on one character: the code points CPython treats as
whitespace (and that `str.strip()` therefore strips) — `\t \n \v \f \r`,
`\x1c`-`\x1f`, space, `\x85`, NBSP, and the Unicode space separators
U+1680, U+2000-U+200A, U+2028, U+2029, U+202F, U+205F, U+3000. -/
def pyIsSpace (c : Char) : Bool :=
  let n := c.toNat
  (decide (0x09 ≤ n) && decide (n ≤ 0x0D)) || n == 0x20 ||
    (decide (0x1C ≤ n) && decide (n ≤ 0x1F)) || n == 0x85 || n == 0xA0 ||
    n == 0x1680 || (decide (0x2000 ≤ n) && decide (n ≤ 0x200A)) ||
    n == 0x2028 || n == 0x2029 || n == 0x202F || n == 0x205F || n == 0x3000

/-- Python `str.strip()`: drop leading and trailing whitespace. -/
def pyStrip (s : String) : String :=
  String.mk (((s.data.dropWhile pyIsSpace).reverse.dropWhile pyIsSpace).reverse)

/-- The code-point ranges of the Unicode decimal digits (general category Nd,
Unicode 15.0, the database CPython 3.12 ships).  Each run is ten consecutive
digits 0-9 of one script, except 1D7CE-1D7FF (five styled mathematical runs). -/
def ndDigitRanges : List (Nat × Nat) :=
  [(0x0030, 0x0039), (0x0660, 0x0669), (0x06F0, 0x06F9), (0x07C0, 0x07C9),
   (0x0966, 0x096F), (0x09E6, 0x09EF), (0x0A66, 0x0A6F), (0x0AE6, 0x0AEF),
   (0x0B66, 0x0B6F), (0x0BE6, 0x0BEF), (0x0C66, 0x0C6F), (0x0CE6, 0x0CEF),
   (0x0D66, 0x0D6F), (0x0DE6, 0x0DEF), (0x0E50, 0x0E59), (0x0ED0, 0x0ED9),
   (0x0F20, 0x0F29), (0x1040, 0x1049), (0x1090, 0x1099), (0x17E0, 0x17E9),
   (0x1810, 0x1819), (0x1946, 0x194F), (0x19D0, 0x19D9), (0x1A80, 0x1A89),
   (0x1A90, 0x1A99), (0x1B50, 0x1B59), (0x1BB0, 0x1BB9), (0x1C40, 0x1C49),
   (0x1C50, 0x1C59), (0xA620, 0xA629), (0xA8D0, 0xA8D9), (0xA900, 0xA909),
   (0xA9D0, 0xA9D9), (0xA9F0, 0xA9F9), (0xAA50, 0xAA59), (0xABF0, 0xABF9),
   (0xFF10, 0xFF19), (0x104A0, 0x104A9), (0x10D30, 0x10D39), (0x11066, 0x1106F),
   (0x110F0, 0x110F9), (0x11136, 0x1113F), (0x111D0, 0x111D9), (0x112F0, 0x112F9),
   (0x11450, 0x11459), (0x114D0, 0x114D9), (0x11650, 0x11659), (0x116C0, 0x116C9),
   (0x11730, 0x11739), (0x118E0, 0x118E9), (0x11950, 0x11959), (0x11C50, 0x11C59),
   (0x11D50, 0x11D59), (0x11DA0, 0x11DA9), (0x11F50, 0x11F59), (0x16A60, 0x16A69),
   (0x16AC0, 0x16AC9), (0x16B50, 0x16B59), (0x1D7CE, 0x1D7FF), (0x1E140, 0x1E149),
   (0x1E2F0, 0x1E2F9), (0x1E4F0, 0x1E4F9), (0x1E950, 0x1E959), (0x1FBF0, 0x1FBF9)]

/-- The character class Python's regex `\d` matches against a `str` pattern:
any Unicode decimal digit (category Nd), NOT only the ASCII digits. -/
def pyIsDigit (c : Char) : Bool :=
  ndDigitRanges.any (fun r => decide (r.1 ≤ c.toNat) && decide (c.toNat ≤ r.2))

/-- `_generate_complaint_no` (src/app.py:41-47): draw a random number in
100000-999999, format it, and return it unless some persisted complaint
already carries it; otherwise retry.  `draws` is the stream of
`random.randint` results; `none` models running out of supplied draws. -/
def _generate_complaint_no (draws : List Nat) (complaints : List Complaint) : Option String :=
  match draws with
  | [] => none
  | d :: rest =>
    let num := Nat.repr d
    match complaints.find? (fun c => c.complaint_no == num) with
    | some _ => _generate_complaint_no rest complaints
    | none => some num

/-- `is_valid_aadhar` (src/app.py:50-52): `re.fullmatch(r"\d{12}", (aadhar or "").strip())`.
`none` models Python `None` (`aadhar or ""` maps both `None` and `""` to `""`);
`\d` on a `str` pattern matches any Unicode decimal digit (`pyIsDigit`). -/
def is_valid_aadhar (aadhar : Option String) : Bool :=
  let s := pyStrip (aadhar.getD "")
  s.length == 12 && s.data.all pyIsDigit

/-- Image-saving loop of `file_complaint` (src/app.py:313-323): for each
uploaded file with a truthy filename, store it as
`f"{uuid.uuid4().hex}_{secure_filename(file.filename)}"` and add a
`ComplaintImage` row.  `files` are the raw filenames (`""` models a falsy
file), `uuids` the stream of `uuid4().hex` tokens, `sanitize` the external
`secure_filename` collaborator, `startId` the next autoincrement id. -/
def saveImages (complaint_id : Nat) (files uuids : List String)
    (sanitize : String → String) (startId now : Nat) : List ComplaintImage :=
  match files, uuids with
  | f :: fs, u :: us =>
    if f ≠ "" then
      { id := startId, complaint_id := complaint_id
        image_path := u ++ "_" ++ sanitize f, uploaded_at := now }
        :: saveImages complaint_id fs us sanitize (startId + 1) now
    else saveImages complaint_id fs us sanitize startId now
  | _, _ => []

/-- The submitted complaint form; `none` models an absent key, so
`f.get(k, default)` becomes `getD`. -/
structure ComplaintForm where
  title : Option String
  location : Option String
  category : Option String
  subcategory : Option String
  sub_subcategory : Option String
  priority : Option String
  affected_people : Option String
  description : Option String
deriving DecidableEq, Repr

/-- POST branch of `file_complaint` (src/app.py:278-351) for an
authenticated `citizen`: strip the fields, silently normalise an unknown
priority to `"Normal"`, reject when a mandatory field is blank, otherwise
insert the complaint (number from `_generate_complaint_no`, status
`"Pending"`, owner recorded by Aadhar), insert the image rows, attempt the
confirmation email and redirect to the dashboard.  Returns `none` when the
draw stream cannot produce a fresh complaint number (the Python generator
would loop forever). -/
def file_complaint (st : Store) (citizen : Citizen) (form : ComplaintForm)
    (draws : List Nat) (newId : Nat) (files uuids : List String)
    (sanitize : String → String) (imgStartId now : Nat) (emailOk : Bool) :
    Option HandlerResult :=
  let title := pyStrip (form.title.getD "")
  let location := pyStrip (form.location.getD "")
  let category := pyStrip (form.category.getD "")
  let subcategory := pyStrip (form.subcategory.getD "")
  let sub_subcat := pyStrip (form.sub_subcategory.getD "")
  let priority0 := pyStrip (form.priority.getD "Normal")
  let affected := pyStrip (form.affected_people.getD "Just Me")
  let description := pyStrip (form.description.getD "")
  let priority :=
    if priority0 = "Normal" ∨ priority0 = "Urgent" ∨ priority0 = "Critical"
    then priority0 else "Normal"
  if title = "" ∨ location = "" ∨ category = "" ∨ description = "" then
    some { store := st
           flashes := [⟨"Please fill all mandatory fields.", "danger"⟩]
           redirect := "file_complaint"
           emails := [] }
  else
    match _generate_complaint_no draws st.complaints with
    | none => none
    | some no =>
      let newC : Complaint :=
        { id := newId, complaint_no := no, title := title, location := location
          category := category, subcategory := subcategory
          sub_subcategory := sub_subcat, priority := priority
          affected_people := affected, description := description
          citizen_aadhar := citizen.aadhar_number, status := "Pending"
          date_created := now }
      let st' : Store :=
        { st with complaints := st.complaints ++ [newC]
                  images := st.images ++ saveImages newId files uuids sanitize imgStartId now }
      some { store := st'
             flashes :=
               (if emailOk then []
                else [⟨"Complaint saved, but e-mail failed (see logs).", "warning"⟩]) ++
               [⟨"Complaint submitted successfully. Complaint No: " ++ no, "success"⟩]
             redirect := "citizen_dashboard"
             emails := [⟨"City Complaint Registered", citizen.email⟩] }

/-- `solve_complaint` (src/app.py:386-428) for an authenticated officer:
look up the complaint by number (`first()`); not-found flashes a danger
message and changes nothing; an already-Solved complaint flashes an info
message and changes nothing; otherwise set the status to `"Solved"`,
commit, flash success, and — only when a citizen with the complaint's
Aadhar exists — attempt the resolution email (a failed send merely adds a
warning flash). -/
def solve_complaint (st : Store) (complaint_no : String) (emailOk : Bool) :
    HandlerResult :=
  match st.complaints.find? (fun c => c.complaint_no == complaint_no) with
  | none =>
    { store := st, flashes := [⟨"Complaint not found.", "danger"⟩]
      redirect := "officer_complaints", emails := [] }
  | some comp =>
    if comp.status ≠ "Solved" then
      let upd := fun (c : Complaint) =>
        if c.id = comp.id then { c with status := "Solved" } else c
      let st' : Store := { st with complaints := st.complaints.map upd }
      match st.citizens.find? (fun z => z.aadhar_number == comp.citizen_aadhar) with
      | some z =>
        { store := st'
          flashes := [⟨complaint_no ++ " marked as solved.", "success"⟩] ++
            (if emailOk then []
             else [⟨"Complaint solved, but e-mail failed (see logs).", "warning"⟩])
          redirect := "officer_complaints"
          emails := [⟨"Your City Complaint has been Resolved", z.email⟩] }
      | none =>
        { store := st'
          flashes := [⟨complaint_no ++ " marked as solved.", "success"⟩]
          redirect := "officer_complaints"
          emails := [] }
    else
      { store := st, flashes := [⟨complaint_no ++ " is already solved.", "info"⟩]
        redirect := "officer_complaints", emails := [] }

/-- Query of `officer_complaints` (src/app.py:365-382): complaints inner-joined
to citizens on `Citizen.aadhar_number == Complaint.citizen_aadhar`, ordered by
`Complaint.date_created` descending.  The route then projects each row to the
complaint's columns; we keep the joined pair, which carries strictly more. -/
def officer_complaints (st : Store) : List (Complaint × Citizen) :=
  (st.complaints.flatMap (fun c =>
      (st.citizens.filter (fun z => z.aadhar_number == c.citizen_aadhar)).map
        (fun z => (c, z)))).mergeSort
    (fun a b => decide (b.1.date_created ≤ a.1.date_created))

/-- One column declaration of the SQLAlchemy schema: SQLAlchemy defaults are
`unique=False` and `nullable=True` (primary keys and columns declared
`nullable=False` are recorded as such). -/
structure ColumnDef where
  name : String
  unique : Bool
  nullable : Bool
deriving DecidableEq, Repr

/-- One table of the schema. -/
structure TableDef where
  tablename : String
  columns : List ColumnDef
deriving DecidableEq, Repr

/-- `officers` table (src/app.py:77-83). -/
def officers_table : TableDef :=
  { tablename := "officers"
    columns :=
      [⟨"id", false, false⟩,
       ⟨"name", false, false⟩,
       ⟨"email", true, false⟩,
       ⟨"password", false, false⟩] }

/-- `citizens` table (src/app.py:86-96). -/
def citizens_table : TableDef :=
  { tablename := "citizens"
    columns :=
      [⟨"id", false, false⟩,
       ⟨"name", false, false⟩,
       ⟨"aadhar_number", true, false⟩,
       ⟨"contact", false, false⟩,
       ⟨"email", true, false⟩,
       ⟨"password", false, false⟩,
       ⟨"address", false, false⟩,
       ⟨"date_created", false, true⟩] }

/-- `complaints` table (src/app.py:99-124). -/
def complaints_table : TableDef :=
  { tablename := "complaints"
    columns :=
      [⟨"id", false, false⟩,
       ⟨"complaint_no", true, false⟩,
       ⟨"title", false, false⟩,
       ⟨"location", false, false⟩,
       ⟨"category", false, false⟩,
       ⟨"subcategory", false, true⟩,
       ⟨"sub_subcategory", false, true⟩,
       ⟨"priority", false, false⟩,
       ⟨"affected_people", false, false⟩,
       ⟨"description", false, false⟩,
       ⟨"citizen_aadhar", false, false⟩,
       ⟨"status", false, false⟩,
       ⟨"date_created", false, true⟩] }

/-- `complaint_images` table (src/app.py:127-132). -/
def complaint_images_table : TableDef :=
  { tablename := "complaint_images"
    columns :=
      [⟨"id", false, false⟩,
       ⟨"complaint_id", false, false⟩,
       ⟨"image_path", false, false⟩,
       ⟨"uploaded_at", false, true⟩] }

/-- Whether the schema declares a database-level unique constraint on the
named column of a table. -/
def columnUnique (t : TableDef) (col : String) : Bool :=
  match t.columns.find? (fun c => c.name == col) with
  | some c => c.unique
  | none => false

/-! ### Decimal-representation helper lemmas (for the complaint-number generator) -/

theorem digitChar_isDigit : ∀ k : Nat, k < 10 → (Nat.digitChar k).isDigit = true := by
  decide

theorem toDigitsCore10_length :
    ∀ (fuel n : Nat) (ds : List Char), n < fuel →
      (Nat.toDigitsCore 10 fuel n ds).length = Nat.log 10 n + 1 + ds.length := by
  intro fuel
  induction fuel with
  | zero => intro n ds h; exact absurd h (Nat.not_lt_zero n)
  | succ fuel ih =>
    intro n ds h
    simp only [Nat.toDigitsCore]
    by_cases h10 : n / 10 = 0
    · have hmod : n % 10 < 10 := Nat.mod_lt _ (by norm_num)
      have hdm := Nat.div_add_mod n 10
      have hn : n < 10 := by omega
      have hlog : Nat.log 10 n = 0 := Nat.log_eq_zero_iff.mpr (Or.inl hn)
      simp [h10, hlog]
      omega
    · have hge : 10 ≤ n := by
        by_contra h'
        exact h10 (Nat.div_eq_of_lt (by omega))
      have hlt : n / 10 < fuel := by
        have := Nat.div_lt_self (by omega : 0 < n) (by norm_num : 1 < 10)
        omega
      rw [if_neg h10, ih (n / 10) _ hlt]
      have h1 : Nat.log 10 (n / 10) = Nat.log 10 n - 1 := Nat.log_div_base 10 n
      have h2 : 0 < Nat.log 10 n := Nat.log_pos (by norm_num) hge
      simp only [List.length_cons]
      omega

theorem toDigitsCore10_digits :
    ∀ (fuel n : Nat) (ds : List Char), (∀ c ∈ ds, c.isDigit = true) →
      ∀ c ∈ Nat.toDigitsCore 10 fuel n ds, c.isDigit = true := by
  intro fuel
  induction fuel with
  | zero => intro n ds hds; simpa [Nat.toDigitsCore] using hds
  | succ fuel ih =>
    intro n ds hds
    have hmod : n % 10 < 10 := Nat.mod_lt _ (by norm_num)
    have hd : (Nat.digitChar (n % 10)).isDigit = true := digitChar_isDigit _ hmod
    have hcons : ∀ c ∈ Nat.digitChar (n % 10) :: ds, c.isDigit = true := by
      intro c hc
      rcases List.mem_cons.mp hc with h | h
      · exact h ▸ hd
      · exact hds c h
    simp only [Nat.toDigitsCore]
    by_cases h10 : n / 10 = 0
    · simpa [h10] using hcons
    · rw [if_neg h10]
      exact ih (n / 10) _ hcons

theorem repr_length_six (d : Nat) (h1 : 100000 ≤ d) (h2 : d ≤ 999999) :
    (Nat.repr d).length = 6 := by
  have e5 : (10 : Nat) ^ 5 = 100000 := by norm_num
  have e6 : (10 : Nat) ^ 6 = 1000000 := by norm_num
  have hlog : Nat.log 10 d = 5 :=
    Nat.log_eq_of_pow_le_of_lt_pow (by omega) (by rw [e6]; omega)
  have hlen : (Nat.repr d).length = (Nat.toDigits 10 d).length := rfl
  rw [hlen]
  unfold Nat.toDigits
  rw [toDigitsCore10_length (d + 1) d [] (Nat.lt_succ_self d), hlog]
  rfl

theorem repr_digits (n : Nat) : ∀ c ∈ (Nat.repr n).data, c.isDigit = true := by
  intro c hc
  have hdata : (Nat.repr n).data = Nat.toDigits 10 n := rfl
  rw [hdata] at hc
  exact toDigitsCore10_digits (n + 1) n [] (by simp) c hc

theorem generate_aux :
    ∀ (draws : List Nat) (cs : List Complaint) (s : String),
      (∀ d ∈ draws, 100000 ≤ d ∧ d ≤ 999999) →
      _generate_complaint_no draws cs = some s →
      s.length = 6 ∧ (∀ c ∈ s.data, c.isDigit = true) ∧
        (∃ d, 100000 ≤ d ∧ d ≤ 999999 ∧ s = Nat.repr d) ∧
        ∀ c ∈ cs, c.complaint_no ≠ s := by
  intro draws
  induction draws with
  | nil => intro cs s _ hgen; simp [_generate_complaint_no] at hgen
  | cons d rest ih =>
    intro cs s hrange hgen
    simp only [_generate_complaint_no] at hgen
    cases hf : cs.find? (fun c => c.complaint_no == Nat.repr d) with
    | some c0 =>
      rw [hf] at hgen
      exact ih cs s (fun d' hd' => hrange d' (List.mem_cons_of_mem _ hd')) hgen
    | none =>
      rw [hf] at hgen
      obtain ⟨hd1, hd2⟩ := hrange d (List.mem_cons_self _ _)
      have hse : s = Nat.repr d := by
        simpa using hgen.symm
      subst hse
      refine ⟨repr_length_six d hd1 hd2, repr_digits d, ⟨d, hd1, hd2, rfl⟩, ?_⟩
      intro c hc
      have hnp := List.find?_eq_none.mp hf c hc
      simpa using hnp

/-- C1: every value returned by `_generate_complaint_no` is a 6-character
all-digit string, the decimal representation of a draw in 100000-999999, and
differs from every `complaint_no` already persisted at the time of the call. -/
theorem generate_complaint_no_spec (draws : List Nat) (cs : List Complaint) (s : String)
    (hrange : ∀ d ∈ draws, 100000 ≤ d ∧ d ≤ 999999)
    (hgen : _generate_complaint_no draws cs = some s) :
    s.length = 6 ∧ (∀ c ∈ s.data, c.isDigit = true) ∧
      (∃ d, 100000 ≤ d ∧ d ≤ 999999 ∧ s = Nat.repr d) ∧
      ∀ c ∈ cs, c.complaint_no ≠ s :=
  generate_aux draws cs s hrange hgen

/-- Witness for C1 at the concrete draw 123456 against an empty store. -/
theorem generate_complaint_no_spec_witness :
    ("123456" : String).length = 6 ∧ (∀ c ∈ ("123456" : String).data, c.isDigit = true) ∧
      (∃ d, 100000 ≤ d ∧ d ≤ 999999 ∧ ("123456" : String) = Nat.repr d) ∧
      ∀ c ∈ ([] : List Complaint), c.complaint_no ≠ "123456" :=
  generate_complaint_no_spec [123456] [] "123456" (by decide) (by decide)

/-- C2 counterexample: the schema does NOT declare unique constraints on all
five claimed columns — `citizens.contact` carries no unique constraint
(src/app.py:92), so the claimed conjunction is false. -/
theorem unique_constraints_counterexample :
    ¬ (columnUnique citizens_table "email" = true ∧
       columnUnique citizens_table "aadhar_number" = true ∧
       columnUnique citizens_table "contact" = true ∧
       columnUnique officers_table "email" = true ∧
       columnUnique complaints_table "complaint_no" = true) := by
  decide

/-- C2 amended: the schema declares database-level unique constraints on
`Citizen.email`, `Citizen.aadhar_number`, `Officer.email` and
`Complaint.complaint_no`, but not on `Citizen.contact` (duplicate contacts
are prevented only by an application-level check at registration). -/
theorem unique_constraints_amended :
    columnUnique citizens_table "email" = true ∧
    columnUnique citizens_table "aadhar_number" = true ∧
    columnUnique officers_table "email" = true ∧
    columnUnique complaints_table "complaint_no" = true ∧
    columnUnique citizens_table "contact" = false := by
  decide

/-- C3 counterexample: Python's `\d` on a `str` pattern matches Unicode
decimal digits, so `is_valid_aadhar` ACCEPTS the twelve Devanagari digits
`"१२३४५६७८९०१२"`, whose characters are not ASCII digits — refuting the
claimed "true iff exactly 12 ASCII digit characters" at a concrete input. -/
theorem is_valid_aadhar_counterexample :
    is_valid_aadhar (some "१२३४५६७८९०१२") = true ∧
      (pyStrip "१२३४५६७८९०१२").length = 12 ∧
      ¬ ∀ c ∈ (pyStrip "१२३४५६७८९०१२").data, c.isDigit = true := by
  refine ⟨by decide, by decide, by decide⟩

/-- C3 amended: `is_valid_aadhar` returns true exactly when the input is a
present string whose stripped form consists of exactly 12 UNICODE decimal
digit characters (the category-Nd class Python's `\d` matches — not only
ASCII digits); `none` (Python `None`) and the empty string are rejected, as
is any other length or any non-digit character. -/
theorem is_valid_aadhar_amended (s : Option String) :
    is_valid_aadhar s = true ↔
      ∃ t, s = some t ∧ (pyStrip t).length = 12 ∧ ∀ c ∈ (pyStrip t).data, pyIsDigit c = true := by
  cases s with
  | none =>
    constructor
    · intro h; exact absurd h (by decide)
    · rintro ⟨t, ht, _⟩; exact Option.noConfusion ht
  | some t =>
    simp [is_valid_aadhar, List.all_eq_true]

/-- C5: whenever any of the mandatory fields title, location, category or
description is missing or blank after trimming, `file_complaint` leaves the
store untouched (no Complaint row, no ComplaintImage row), flashes a
user-visible danger message and redirects back to the complaint form; no
email is attempted. -/
theorem file_complaint_missing_field (st : Store) (citizen : Citizen) (form : ComplaintForm)
    (draws : List Nat) (newId : Nat) (files uuids : List String) (sanitize : String → String)
    (imgStartId now : Nat) (emailOk : Bool)
    (hmissing : pyStrip (form.title.getD "") = "" ∨ pyStrip (form.location.getD "") = "" ∨
      pyStrip (form.category.getD "") = "" ∨ pyStrip (form.description.getD "") = "") :
    file_complaint st citizen form draws newId files uuids sanitize imgStartId now emailOk =
      some { store := st
             flashes := [⟨"Please fill all mandatory fields.", "danger"⟩]
             redirect := "file_complaint"
             emails := [] } := by
  simp only [file_complaint]
  rw [if_pos hmissing]

/-- Example citizen row used in concrete instantiations. -/
def exCitizen : Citizen :=
  ⟨1, "Asha", "123456789012", "9876543210", "asha@example.com", "hashedpw", "12 Lane", 0⟩

/-- A complaint form whose description is blank after trimming. -/
def blankDescForm : ComplaintForm :=
  { title := some "Pothole", location := some "MG Road", category := some "Roads"
    subcategory := none, sub_subcategory := none, priority := none
    affected_people := none, description := some "   " }

/-- Witness for C5: a form with a whitespace-only description is rejected
with no state change. -/
theorem file_complaint_missing_field_witness :
    file_complaint ⟨[exCitizen], [], []⟩ exCitizen blankDescForm [111111] 1 [] []
        (fun n => n) 1 5 true =
      some { store := ⟨[exCitizen], [], []⟩
             flashes := [⟨"Please fill all mandatory fields.", "danger"⟩]
             redirect := "file_complaint"
             emails := [] } :=
  file_complaint_missing_field _ _ _ _ _ _ _ _ _ _ _ (by decide)

/-! ### solve_complaint helper lemmas -/

theorem solve_not_found_aux (st : Store) (no : String) (eok : Bool)
    (h : st.complaints.find? (fun c => c.complaint_no == no) = none) :
    solve_complaint st no eok =
      { store := st, flashes := [⟨"Complaint not found.", "danger"⟩]
        redirect := "officer_complaints", emails := [] } := by
  simp only [solve_complaint, h]

theorem solve_already_solved_aux (st : Store) (no : String) (eok : Bool) (comp : Complaint)
    (hf : st.complaints.find? (fun c => c.complaint_no == no) = some comp)
    (hs : comp.status = "Solved") :
    solve_complaint st no eok =
      { store := st, flashes := [⟨no ++ " is already solved.", "info"⟩]
        redirect := "officer_complaints", emails := [] } := by
  simp only [solve_complaint, hf]
  rw [if_neg (fun h => h hs)]

theorem solve_pending_store_aux (st : Store) (no : String) (eok : Bool) (comp : Complaint)
    (hf : st.complaints.find? (fun c => c.complaint_no == no) = some comp)
    (hs : comp.status ≠ "Solved") :
    (solve_complaint st no eok).store =
      { st with complaints :=
          st.complaints.map (fun c => if c.id = comp.id then { c with status := "Solved" } else c) } := by
  simp only [solve_complaint, hf]
  rw [if_pos hs]
  cases st.citizens.find? (fun z => z.aadhar_number == comp.citizen_aadhar) <;> rfl

theorem find?_map_update (l : List Complaint) (no : String) (g : Complaint → Complaint)
    (hg : ∀ c, (g c).complaint_no = c.complaint_no) :
    (l.map g).find? (fun c => c.complaint_no == no) =
      (l.find? (fun c => c.complaint_no == no)).map g := by
  induction l with
  | nil => rfl
  | cons a l ih =>
    simp only [List.map_cons, List.find?_cons, hg a]
    by_cases hpa : (a.complaint_no == no) = true
    · simp [hpa]
    · simp [hpa, ih]

/-- C6: resolving a complaint number that matches no persisted complaint
flashes a user-visible not-found error, leaves the whole store (in
particular every status) unchanged and attempts no email. -/
theorem solve_complaint_not_found (st : Store) (no : String) (eok : Bool)
    (h : ∀ c ∈ st.complaints, c.complaint_no ≠ no) :
    solve_complaint st no eok =
      { store := st, flashes := [⟨"Complaint not found.", "danger"⟩]
        redirect := "officer_complaints", emails := [] } := by
  apply solve_not_found_aux
  rw [List.find?_eq_none]
  intro c hc
  simpa using h c hc

/-- An already-solved complaint on file. -/
def solvedComplaint : Complaint :=
  ⟨1, "123456", "Pothole", "MG Road", "Roads", "", "", "Normal", "Just Me",
    "Deep pothole", "123456789012", "Solved", 2⟩

/-- A store holding `exCitizen` and the already-solved complaint. -/
def solvedStore : Store := ⟨[exCitizen], [solvedComplaint], []⟩

/-- Witness for C6 at a store whose only complaint has a different number. -/
theorem solve_complaint_not_found_witness :
    solve_complaint solvedStore "000000" true =
      { store := solvedStore, flashes := [⟨"Complaint not found.", "danger"⟩]
        redirect := "officer_complaints", emails := [] } :=
  solve_complaint_not_found solvedStore "000000" true (by decide)

/-- C7: resolving is idempotent — an already-Solved complaint is left
entirely unchanged with an informational (category `"info"`, not
`"success"`) flash and no email attempt, and running `solve_complaint`
twice on the same number yields the same store as running it once. -/
theorem solve_complaint_idempotent (st : Store) (no : String) (e1 e2 : Bool) :
    (∀ comp, st.complaints.find? (fun c => c.complaint_no == no) = some comp →
        comp.status = "Solved" →
        solve_complaint st no e1 =
          { store := st, flashes := [⟨no ++ " is already solved.", "info"⟩]
            redirect := "officer_complaints", emails := [] }) ∧
    (solve_complaint (solve_complaint st no e1).store no e2).store =
      (solve_complaint st no e1).store := by
  refine ⟨fun comp hf hs => solve_already_solved_aux st no e1 comp hf hs, ?_⟩
  cases hf : st.complaints.find? (fun c => c.complaint_no == no) with
  | none =>
    rw [solve_not_found_aux st no e1 hf]
    rw [solve_not_found_aux st no e2 hf]
  | some comp =>
    by_cases hs : comp.status = "Solved"
    · rw [solve_already_solved_aux st no e1 comp hf hs]
      rw [solve_already_solved_aux st no e2 comp hf hs]
    · have h1 := solve_pending_store_aux st no e1 comp hf hs
      rw [h1]
      have hg : ∀ c : Complaint,
          ((fun c => if c.id = comp.id then { c with status := "Solved" } else c) c).complaint_no
            = c.complaint_no := by
        intro c
        by_cases h : c.id = comp.id <;> simp [h]
      have hf2 : (st.complaints.map
            (fun c => if c.id = comp.id then { c with status := "Solved" } else c)).find?
            (fun c => c.complaint_no == no) = some { comp with status := "Solved" } := by
        rw [find?_map_update _ no _ hg, hf, Option.map_some']
        simp
      exact congrArg HandlerResult.store
        (solve_already_solved_aux _ no e2 { comp with status := "Solved" } hf2 rfl)

/-- Witness for C7: resolving the already-solved complaint `123456` changes
nothing and flashes only the informational message. -/
theorem solve_complaint_idempotent_witness :
    solve_complaint solvedStore "123456" true =
      { store := solvedStore, flashes := [⟨"123456 is already solved.", "info"⟩]
        redirect := "officer_complaints", emails := [] } :=
  (solve_complaint_idempotent solvedStore "123456" true true).1 solvedComplaint (by decide) rfl

/-- C10: when the complaint being resolved is Pending but its
`citizen_aadhar` matches no persisted citizen, the handler still flips the
status to Solved and commits, flashes only the success message (no warning
about the missing citizen or skipped notification) and attempts no email. -/
theorem solve_complaint_missing_citizen (st : Store) (no : String) (eok : Bool) (comp : Complaint)
    (hf : st.complaints.find? (fun c => c.complaint_no == no) = some comp)
    (hs : comp.status ≠ "Solved")
    (hz : ∀ z ∈ st.citizens, z.aadhar_number ≠ comp.citizen_aadhar) :
    solve_complaint st no eok =
      { store := { st with complaints :=
            st.complaints.map (fun c => if c.id = comp.id then { c with status := "Solved" } else c) }
        flashes := [⟨no ++ " marked as solved.", "success"⟩]
        redirect := "officer_complaints"
        emails := [] } := by
  have hzf : st.citizens.find? (fun z => z.aadhar_number == comp.citizen_aadhar) = none := by
    rw [List.find?_eq_none]
    intro z hzm
    simpa using hz z hzm
  simp only [solve_complaint, hf, hzf]
  rw [if_pos hs]

/-- A pending complaint whose filing citizen is absent from the store. -/
def orphanPendingComplaint : Complaint :=
  ⟨2, "654321", "Open manhole", "Ring Rd", "Roads", "", "", "Urgent", "Just Me",
    "Uncovered manhole", "999988887777", "Pending", 3⟩

/-- Witness for C10: resolving the orphan complaint commits the status flip,
flashes only success, and attempts no email. -/
theorem solve_complaint_missing_citizen_witness :
    solve_complaint ⟨[exCitizen], [orphanPendingComplaint], []⟩ "654321" true =
      { store := ⟨[exCitizen], [{ orphanPendingComplaint with status := "Solved" }], []⟩
        flashes := [⟨"654321 marked as solved.", "success"⟩]
        redirect := "officer_complaints"
        emails := [] } := by
  rw [solve_complaint_missing_citizen ⟨[exCitizen], [orphanPendingComplaint], []⟩ "654321" true
    orphanPendingComplaint (by decide) (by decide) (by decide)]
  decide

/-! ### Officer complaint listing (C9) -/

/-- C9 counterexample: the listing is an inner join, so a persisted complaint
whose `citizen_aadhar` matches no citizen is dropped — the listing does NOT
return all persisted complaints. -/
theorem officer_complaints_counterexample :
    officer_complaints ⟨[exCitizen], [orphanPendingComplaint], []⟩ = [] ∧
      (⟨[exCitizen], [orphanPendingComplaint], []⟩ : Store).complaints ≠ [] := by
  constructor
  · have hjoin :
        (Store.complaints ⟨[exCitizen], [orphanPendingComplaint], []⟩).flatMap
          (fun c =>
            ((Store.citizens ⟨[exCitizen], [orphanPendingComplaint], []⟩).filter
              (fun z => z.aadhar_number == c.citizen_aadhar)).map (fun z => (c, z))) = [] := by
      decide
    unfold officer_complaints
    rw [hjoin, List.mergeSort_nil]
  · decide

/-- C9 amended: the officer listing returns exactly the complaint-citizen
pairs related by Aadhar equality (an inner join — complaints with no matching
citizen are omitted), ordered by the complaint's creation timestamp
descending. -/
theorem officer_complaints_amended (st : Store) :
    (officer_complaints st).Pairwise
      (fun a b => b.1.date_created ≤ a.1.date_created) ∧
    ∀ c z, ((c, z) ∈ officer_complaints st ↔
      c ∈ st.complaints ∧ z ∈ st.citizens ∧ z.aadhar_number = c.citizen_aadhar) := by
  constructor
  · unfold officer_complaints
    refine List.Pairwise.imp (fun h => of_decide_eq_true h)
      (List.sorted_mergeSort ?_ ?_ _)
    · intro a b c hab hbc
      have h1 := of_decide_eq_true hab
      have h2 := of_decide_eq_true hbc
      exact decide_eq_true (Nat.le_trans h2 h1)
    · intro a b
      rw [Bool.or_eq_true]
      exact (Nat.le_total b.1.date_created a.1.date_created).imp decide_eq_true decide_eq_true
  · intro c z
    unfold officer_complaints
    rw [List.mem_mergeSort, List.mem_flatMap]
    constructor
    · rintro ⟨c', hc', hmem⟩
      rcases List.mem_map.mp hmem with ⟨z', hz', hpair⟩
      rcases List.mem_filter.mp hz' with ⟨hzmem, hbeq⟩
      have hpair' : (c', z') = (c, z) := hpair
      injection hpair' with h1 h2
      subst h1
      subst h2
      exact ⟨hc', hzmem, by simpa using hbeq⟩
    · rintro ⟨hc, hz, haad⟩
      exact ⟨c, hc, List.mem_map.mpr ⟨z, List.mem_filter.mpr ⟨hz, by simpa using haad⟩, rfl⟩⟩

/-! ### Priority normalisation (C8) -/

/-- A form whose submitted priority is `" Urgent "`: not literally one of
the three allowed values, but trimming makes it `"Urgent"`. -/
def spacedPriorityForm : ComplaintForm :=
  { title := some "Streetlight", location := some "Park St", category := some "Electrical"
    subcategory := none, sub_subcategory := none, priority := some " Urgent "
    affected_people := none, description := some "Lamp dead" }

/-- C8 counterexample: the handler trims the submitted priority before the
membership check, so the submitted value `" Urgent "` — which is not one of
`"Normal"`, `"Urgent"`, `"Critical"` — is stored as `"Urgent"`, not as the
claimed `"Normal"`. -/
theorem file_complaint_priority_counterexample :
    " Urgent " ∉ (["Normal", "Urgent", "Critical"] : List String) ∧
    (file_complaint ⟨[], [], []⟩ exCitizen spacedPriorityForm [333333] 1 [] []
        (fun n => n) 1 5 true).map (fun r => r.store.complaints.map Complaint.priority) =
      some ["Urgent"] ∧
    ("Urgent" : String) ≠ "Normal" := by
  refine ⟨by decide, by decide, by decide⟩

/-- C8 amended: when the submitted priority is, AFTER TRIMMING, not one of
`"Normal"`, `"Urgent"`, `"Critical"`, and the mandatory fields are present,
the single complaint appended to the store has priority `"Normal"` and the
request succeeds (redirect to the dashboard, no error); consequently every
complaint `file_complaint` persists has priority in that set whenever the
prior store did. -/
theorem file_complaint_priority_amended (st : Store) (citizen : Citizen) (form : ComplaintForm)
    (draws : List Nat) (newId : Nat) (files uuids : List String) (sanitize : String → String)
    (imgStartId now : Nat) (emailOk : Bool) (r : HandlerResult)
    (hr : file_complaint st citizen form draws newId files uuids sanitize imgStartId now emailOk
      = some r) :
    (pyStrip (form.priority.getD "Normal") ∉ (["Normal", "Urgent", "Critical"] : List String) →
      pyStrip (form.title.getD "") ≠ "" → pyStrip (form.location.getD "") ≠ "" →
      pyStrip (form.category.getD "") ≠ "" → pyStrip (form.description.getD "") ≠ "" →
      ∃ c, r.store.complaints = st.complaints ++ [c] ∧ c.priority = "Normal" ∧
        r.redirect = "citizen_dashboard") ∧
    ((∀ c ∈ st.complaints,
        c.priority = "Normal" ∨ c.priority = "Urgent" ∨ c.priority = "Critical") →
      ∀ c ∈ r.store.complaints,
        c.priority = "Normal" ∨ c.priority = "Urgent" ∨ c.priority = "Critical") := by
  simp only [file_complaint] at hr
  by_cases hA : pyStrip (form.title.getD "") = "" ∨ pyStrip (form.location.getD "") = "" ∨
      pyStrip (form.category.getD "") = "" ∨ pyStrip (form.description.getD "") = ""
  · rw [if_pos hA] at hr
    obtain rfl := Option.some.inj hr
    constructor
    · intro _ ht hl hc hd
      rcases hA with h | h | h | h
      · exact absurd h ht
      · exact absurd h hl
      · exact absurd h hc
      · exact absurd h hd
    · intro hinv c hcm
      exact hinv c hcm
  · rw [if_neg hA] at hr
    cases hgen : _generate_complaint_no draws st.complaints with
    | none => rw [hgen] at hr; exact absurd hr (by simp)
    | some no =>
      rw [hgen] at hr
      obtain rfl := Option.some.inj hr
      constructor
      · intro hp _ _ _ _
        have hp' : ¬(pyStrip (form.priority.getD "Normal") = "Normal" ∨
            pyStrip (form.priority.getD "Normal") = "Urgent" ∨
            pyStrip (form.priority.getD "Normal") = "Critical") := by
          simpa using hp
        refine ⟨_, rfl, ?_, rfl⟩
        simp only [if_neg hp']
      · intro hinv c hcm
        simp only [List.mem_append, List.mem_singleton] at hcm
        rcases hcm with hold | rfl
        · exact hinv c hold
        · simp only []
          by_cases hq : pyStrip (form.priority.getD "Normal") = "Normal" ∨
              pyStrip (form.priority.getD "Normal") = "Urgent" ∨
              pyStrip (form.priority.getD "Normal") = "Critical"
          · rw [if_pos hq]
            exact hq
          · rw [if_neg hq]
            exact Or.inl rfl

/-- A form with the unknown priority `"Bogus"` and all mandatory fields set. -/
def bogusPriorityForm : ComplaintForm :=
  { title := some "Streetlight", location := some "Park St", category := some "Electrical"
    subcategory := none, sub_subcategory := none, priority := some "Bogus"
    affected_people := none, description := some "Lamp dead" }

/-- Result of filing `bogusPriorityForm` into the empty store with draw
222222: the stored priority falls back to `"Normal"`. -/
def bogusPriorityResult : HandlerResult :=
  { store := ⟨[], [⟨1, "222222", "Streetlight", "Park St", "Electrical", "", "", "Normal",
      "Just Me", "Lamp dead", "123456789012", "Pending", 5⟩], []⟩
    flashes := [⟨"Complaint submitted successfully. Complaint No: 222222", "success"⟩]
    redirect := "citizen_dashboard"
    emails := [⟨"City Complaint Registered", "asha@example.com"⟩] }

/-- Witness for C8 (amended): filing with priority `"Bogus"` persists
priority `"Normal"` and redirects to the dashboard. -/
theorem file_complaint_priority_amended_witness :
    bogusPriorityResult.store.complaints.map Complaint.priority = ["Normal"] ∧
    bogusPriorityResult.redirect = "citizen_dashboard" := by
  obtain ⟨c, hc, hp, hrd⟩ :=
    (file_complaint_priority_amended ⟨[], [], []⟩ exCitizen bogusPriorityForm [222222] 1 [] []
      (fun n => n) 1 5 true bogusPriorityResult (by decide)).1
      (by decide) (by decide) (by decide) (by decide) (by decide)
  rw [hc]
  simp [hp, hrd]

end CityPortal
